import Mathlib

/-!
# Shallow embedding of `corgidb` (roman-corgi/corgidb)

This file embeds the schema-migration / reconciliation logic of
`src/corgidb/ingest.py` and the saturation-curve generator of
`src/Scripts/gen_saturation_curves.py`, and proves the frozen claims
about them.

Modelling conventions:

* A pandas `DataFrame` read from the change-request file is a header
  (`List String`, the column names) together with a list of `ReqRow`
  records; a missing (NaN) cell is `Option.none`.
* The live database is a `DB`: a list of `(table name, live column names)`
  pairs, standing for what `SHOW TABLES` / `SHOW COLUMNS IN t` return.
* Every SQL statement the code passes to `connection.execute` is recorded
  as a `Stmt`; `render` produces exactly the statement text the Python
  f-strings build.  Execution is sequential, so a run's result is the list
  of statements issued before the first uncaught Python exception
  (`AssertionError`, `IndexError`, `ValueError`), plus that exception when
  one occurs.
* Python renders a NaN cell inside an f-string as the text `"nan"`;
  `pyStr` mirrors this.
* The `show create table` introspection of `updateSQLschema` is modelled
  at the level of its parsed result: each column-definition line of the
  DDL text is a `LiveCol` carrying the backtick-quoted column name matched
  by the regex, the stripped definition text, and whether the line already
  contains `COMMENT`.
* Python's `set` iteration order is unspecified; wherever the source
  materialises a set into a list (`list(set(..))`, `set.intersection`,
  set difference) the model uses first-occurrence order of the underlying
  data, one of the orders Python may produce.
-/

/-- One row of the change-request spreadsheet read by `proc_col_req`.
A `none` field is a NaN cell.  `NEW_KEY` and `INDEX` cells hold booleans
once present (the code fills NaN with `False` before using them). -/
structure ReqRow where
  my_colname : Option String
  db_colname : Option String
  table : Option String
  units : Option String
  new_key : Option Bool
  description : Option String
  sql_datatype : Option String
  idx : Option Bool
  foreignkey : Option String
deriving Repr, DecidableEq

/-- The live database as seen through `SHOW TABLES` and `SHOW COLUMNS`:
pairs of a table name and its live column names. -/
def DB := List (String × List String)

/-- Statements issued through `connection.execute` (and the bulk load of
`DataFrame.to_sql`), in the order the code issues them. -/
inductive Stmt where
  | addColumn (table col datatype descr : String)
  | createTable (table : String) (cols : List (String × String × String))
  | addIndex (table : String) (cols : List String)
  | addForeignKey (table col fkey : String)
  | changeColumn (table col defn comment : String)
  | bulkLoad (table ifExists : String) (nameWidth : Nat)
deriving Repr, DecidableEq

/-- The table a statement targets. -/
def Stmt.targetTable : Stmt → String
  | .addColumn t _ _ _ => t
  | .createTable t _ => t
  | .addIndex t _ => t
  | .addForeignKey t _ _ => t
  | .changeColumn t _ _ _ => t
  | .bulkLoad t _ _ => t

/-- The SQL datatypes appearing in type position of a statement. -/
def Stmt.datatypes : Stmt → List String
  | .addColumn _ _ dt _ => [dt]
  | .createTable _ cols => cols.map (fun c => c.2.1)
  | _ => []

/-- Python's rendering of a possibly-NaN string cell inside an f-string:
NaN prints as `nan`. -/
def pyStr (x : Option String) : String := x.getD "nan"

/-- The statement text built by the Python format strings, one clause per
constructor (`proc_col_req` lines 124-127 and 150-155, `add_indexes`,
`add_foreignkeys`, `updateSQLschema` lines 320-325, `DataFrame.to_sql`). -/
def render : Stmt → String
  | .addColumn t c dt d =>
      "ALTER TABLE " ++ t ++ " ADD COLUMN " ++ c ++ " " ++ dt ++
        " COMMENT \"" ++ d ++ "\";"
  | .createTable t cols =>
      "CREATE TABLE " ++ t ++ " (" ++
        String.intercalate ", "
          (cols.map (fun c => c.1 ++ " " ++ c.2.1 ++ " COMMENT \"" ++ c.2.2 ++ "\"")) ++
        ");"
  | .addIndex t cols =>
      "ALTER TABLE " ++ t ++ " ADD INDEX (" ++ String.intercalate ", " cols ++ ")"
  | .addForeignKey t c f =>
      "ALTER TABLE " ++ t ++ " ADD FOREIGN KEY (" ++ c ++ ") REFERENCES " ++
        f ++ " ON DELETE NO ACTION ON UPDATE NO ACTION"
  | .changeColumn t c defn comm =>
      "ALTER TABLE `" ++ t ++ "` CHANGE `" ++ c ++ "` " ++ defn ++
        " COMMENT \"" ++ comm ++ "\";"
  | .bulkLoad t ie _ => "-- to_sql " ++ t ++ " if_exists=" ++ ie

/-- `add_indexes` (ingest.py lines 225-235): one `ALTER TABLE .. ADD INDEX`
statement covering every requested column. -/
def add_indexes (tablename : String) (indexes : List String) : List Stmt :=
  [Stmt.addIndex tablename indexes]

/-- `add_foreignkeys` (ingest.py lines 238-256): one
`ALTER TABLE .. ADD FOREIGN KEY` statement per `(col, fkey)` pair of
`zip(cols, foreignkeys)`. -/
def add_foreignkeys (tablename : String) (cols foreignkeys : List String) :
    List Stmt :=
  (cols.zip foreignkeys).map (fun p => Stmt.addForeignKey tablename p.1 p.2)

/-- The `expected_cols` list of `proc_col_req`. -/
def expected_cols : List String :=
  ["MY_COLNAME", "DB_COLNAME", "TABLE", "UNITS", "NEW_KEY", "DESCRIPTION",
   "SQL_DATATYPE", "INDEX", "FOREIGNKEY"]

/-- The column-set assertion of `proc_col_req` (lines 88-90):
`set(data.columns).symmetric_difference(expected_cols)` must be empty. -/
def cols_ok (cols : List String) : Bool :=
  cols.all (fun c => expected_cols.contains c) &&
    expected_cols.all (fun c => cols.contains c)

/-- Lines 92-93: fill NaN `NEW_KEY` and `INDEX` cells with `False`. -/
def fillna_bools (r : ReqRow) : ReqRow :=
  { r with new_key := some (r.new_key.getD false), idx := some (r.idx.getD false) }

/-- Lines 95-96: rows marked new whose `DB_COLNAME` is NaN get
`MY_COLNAME` as their `DB_COLNAME` (runs after `fillna_bools`). -/
def default_db_colname (r : ReqRow) : ReqRow :=
  if r.new_key.getD false && r.db_colname.isNone then
    { r with db_colname := r.my_colname }
  else r

/-- Line 98: the sentinel datatype `STRING` is rewritten to `TEXT`. -/
def normalize_string_type (r : ReqRow) : ReqRow :=
  if r.sql_datatype = some "STRING" then { r with sql_datatype := some "TEXT" }
  else r

/-- The in-place mutations of lines 92-98 on one row, in source order. -/
def proc_row (r : ReqRow) : ReqRow :=
  normalize_string_type (default_db_colname (fillna_bools r))

/-- The in-place mutations of lines 92-98, applied row-wise. -/
def preprocess (rows : List ReqRow) : List ReqRow :=
  rows.map proc_row

/-- The missing-entries assertion of line 100: all of the `reqcols`
(`MY_COLNAME`, `DB_COLNAME`, `TABLE`, `NEW_KEY`, `SQL_DATATYPE`, `INDEX`)
are non-NaN in a row. -/
def reqcols_ok (r : ReqRow) : Bool :=
  r.my_colname.isSome && r.db_colname.isSome && r.table.isSome &&
    r.new_key.isSome && r.sql_datatype.isSome && r.idx.isSome

/-- `pandas.Series.isin` on a possibly-NaN cell: NaN is in no list. -/
def optIsin (x : Option String) (l : List String) : Bool :=
  match x with
  | some s => l.contains s
  | none => false

/-- First-occurrence deduplication: the order in which
`data["TABLE"].unique()` reports values. -/
def uniqueKeepFirst (seen : List String) : List String → List String
  | [] => []
  | x :: xs =>
      if seen.contains x then uniqueKeepFirst seen xs
      else x :: uniqueKeepFirst (x :: seen) xs

/-- The names `SHOW TABLES` returns. -/
def dbTables (db : DB) : List String := db.map Prod.fst

/-- The live column names `SHOW COLUMNS IN t` returns. -/
def dbCols (db : DB) (t : String) : List String :=
  ((db.find? (fun p => p.1 = t)).map Prod.snd).getD []

/-- Result of a sequential run: the statements executed before the first
uncaught exception, and that exception's message when one occurred. -/
structure ProcResult where
  stmts : List Stmt
  error : Option String
deriving Repr, DecidableEq

/-- Lines 115-142, one existing table: assert every requested column
absent from the live columns is marked new (else `AssertionError` before
any statement for this table), then one `ADD COLUMN` per such column,
then the guarded `add_indexes` / `add_foreignkeys` calls. -/
def procExistingTable (rows : List ReqRow) (livecols : List String)
    (t : String) : List Stmt × Option String :=
  let tmp := rows.filter (fun r => r.table == some t)
  let newkeys := tmp.filter (fun r => !optIsin r.db_colname livecols)
  if !newkeys.all (fun r => r.new_key.getD false) then
    ([], some ("Some keys requested for table " ++ t ++
      " do not exist in DB, but are not marked as new."))
  else
    let addcols := newkeys.map (fun r =>
      Stmt.addColumn t (pyStr r.db_colname) (pyStr r.sql_datatype)
        (pyStr r.description))
    let indexes := (tmp.filter (fun r => r.idx.getD false)).map
      (fun r => pyStr r.db_colname)
    let idxStmts := if indexes.length > 0 then add_indexes t indexes else []
    let fkrows := tmp.filter (fun r => r.foreignkey.isSome)
    let fkStmts :=
      if fkrows.length > 0 then
        add_foreignkeys t (fkrows.map (fun r => pyStr r.db_colname))
          (fkrows.map (fun r => pyStr r.foreignkey))
      else []
    (addcols ++ idxStmts ++ fkStmts, none)

/-- The `for t in existing_tables` loop: tables processed in order, the
run stopping at the first `AssertionError`. -/
def procExistingTables (rows : List ReqRow) (db : DB) :
    List String → List Stmt × Option String
  | [] => ([], none)
  | t :: ts =>
      match procExistingTable rows (dbCols db t) t with
      | (s, some e) => (s, some e)
      | (s, none) =>
          let r := procExistingTables rows db ts
          (s ++ r.1, r.2)

/-- Lines 146-170, one new table: a single `CREATE TABLE` listing every
requested column, then the guarded `add_indexes` / `add_foreignkeys`
calls. -/
def procNewTable (rows : List ReqRow) (t : String) : List Stmt :=
  let tmp := rows.filter (fun r => r.table == some t)
  let create := Stmt.createTable t (tmp.map (fun r =>
    (pyStr r.db_colname, pyStr r.sql_datatype, pyStr r.description)))
  let indexes := (tmp.filter (fun r => r.idx.getD false)).map
    (fun r => pyStr r.db_colname)
  let idxStmts := if indexes.length > 0 then add_indexes t indexes else []
  let fkrows := tmp.filter (fun r => r.foreignkey.isSome)
  let fkStmts :=
    if fkrows.length > 0 then
      add_foreignkeys t (fkrows.map (fun r => pyStr r.db_colname))
        (fkrows.map (fun r => pyStr r.foreignkey))
    else []
  create :: (idxStmts ++ fkStmts)

/-- `proc_col_req` (ingest.py lines 49-170) on an already-parsed file:
`cols` is the file's header, `rows` its data rows, `db` the live
database.  Validation (column set, then the row mutations of lines 92-98,
then the missing-entries assertion) precedes every database access;
existing tables are then augmented and new tables created, sequentially. -/
def req_tables (rows : List ReqRow) : List String :=
  uniqueKeepFirst [] (rows.filterMap (fun r => r.table))

/-- `existing_tables = list(set(req_tables).intersection(tables))`. -/
def existing_tables (rows : List ReqRow) (db : DB) : List String :=
  (req_tables rows).filter (fun t => (dbTables db).contains t)

/-- `new_tables = list(set(req_tables) - set(existing_tables))`. -/
def new_tables (rows : List ReqRow) (db : DB) : List String :=
  (req_tables rows).filter (fun t => !(dbTables db).contains t)

def proc_col_req (cols : List String) (rows : List ReqRow) (db : DB) :
    ProcResult :=
  if !cols_ok cols then
    ⟨[], some ("Input data must contain the columns: " ++
      String.intercalate ", " expected_cols ++ " ONLY")⟩
  else
    let data := preprocess rows
    if !data.all reqcols_ok then ⟨[], some "Input data is missing entries."⟩
    else
      let er := procExistingTables data db (existing_tables data db)
      match er.2 with
      | some e => ⟨er.1, some e⟩
      | none =>
          ⟨er.1 ++ ((new_tables data db).map (procNewTable data)).flatten, none⟩

/-- One row of the schema-description DataFrame of `updateSQLschema`:
columns `Column`, `Comments`, `Index` (numeric, compared to 1) and
`ForeignKey` (NaN when absent). -/
structure SchemaRow where
  column : String
  comments : Option String
  idx : Int
  foreignKey : Option String
deriving Repr, DecidableEq

/-- One parsed column-definition line of the `show create table` output:
the backtick-quoted name the regex extracts, the stripped definition
text, and whether the line already contains `COMMENT`. -/
structure LiveCol where
  name : String
  defn : String
  hasComment : Bool
deriving Repr, DecidableEq

/-- Result of `updateSQLschema` and its callers: statements executed
before the first uncaught exception, warnings emitted, and the exception
when one occurred. -/
structure UpdateResult where
  stmts : List Stmt
  warnings : List String
  error : Option String
deriving Repr, DecidableEq

/-- Lines 320-325, the comment-application loop over `zip(keys, defs)`:
for each uncommented live column, look up its `Comments` cell in the
(filtered) schema by exact name; `.values[0]` on a column absent from the
schema raises `IndexError`, aborting the run after the statements already
issued. -/
def changeLoop (tablename : String) (schema : List SchemaRow) :
    List (String × String) → List Stmt × Option String
  | [] => ([], none)
  | (key, d) :: rest =>
      match (schema.filter (fun s => s.column == key)).head? with
      | none => ([], some ("IndexError: index 0 is out of bounds (no schema row for column " ++ key ++ ")"))
      | some row =>
          let r := changeLoop tablename schema rest
          (Stmt.changeColumn tablename key d (pyStr row.comments) :: r.1, r.2)

/-- `updateSQLschema` (ingest.py lines 259-325): apply the schema's
indexes and foreign keys, parse the uncommented column definitions out of
`show create table`, warn (once, listing all of them) about live columns
missing from the schema and about schema columns missing from the live
table — the latter are dropped from the schema — then re-issue each
remaining definition as a `CHANGE` statement carrying the schema's
comment. -/
def updateSQLschema (tablename : String) (schema : List SchemaRow)
    (live : List LiveCol) : UpdateResult :=
  let indexes := (schema.filter (fun s => s.idx == 1)).map (fun s => s.column)
  let idxStmts := if indexes.length > 0 then add_indexes tablename indexes else []
  let fkrows := schema.filter (fun s => s.foreignKey.isSome)
  let fkStmts :=
    if fkrows.length > 0 then
      add_foreignkeys tablename (fkrows.map (fun s => s.column))
        (fkrows.map (fun s => pyStr s.foreignKey))
    else []
  let uncommented := live.filter (fun c => !c.hasComment)
  let keys := uncommented.map (fun c => c.name)
  let defs := uncommented.map (fun c => c.defn)
  let schemaCols := schema.map (fun s => s.column)
  let missing_from_schema :=
    (uniqueKeepFirst [] keys).filter (fun k => !schemaCols.contains k)
  let w1 :=
    if missing_from_schema.length > 0 then
      ["Columns present in table but missing from schema: " ++
        String.intercalate "," missing_from_schema]
    else []
  let missing_from_table :=
    (uniqueKeepFirst [] schemaCols).filter (fun k => !keys.contains k)
  let schema2 :=
    if missing_from_table.length > 0 then
      schema.filter (fun s => !missing_from_table.contains s.column)
    else schema
  let w2 :=
    if missing_from_table.length > 0 then
      ["Columns present in schema but missing from table (or already have comments): " ++
        String.intercalate "," missing_from_table]
    else []
  let cl := changeLoop tablename schema2 (keys.zip defs)
  ⟨idxStmts ++ fkStmts ++ cl.1, w1 ++ w2, cl.2⟩

/-- `gen_Scenarios_table` (ingest.py lines 173-196): `names` is the
`scenario_name` column of the data.  `np.max` over the name lengths
raises `ValueError` on an empty column; otherwise the data is
replace-loaded via `to_sql(if_exists="replace")` with the name column
typed `String(namemxchar)`, and `updateSQLschema` runs against the
supplied schema. -/
def gen_Scenarios_table (names : List String) (schema : List SchemaRow)
    (live : List LiveCol) : UpdateResult :=
  match (names.map String.length).max? with
  | none => ⟨[], [], some "ValueError: zero-size array to reduction operation maximum which has no identity"⟩
  | some namemxchar =>
      let u := updateSQLschema "Scenarios" schema live
      ⟨Stmt.bulkLoad "Scenarios" "replace" namemxchar :: u.stmts, u.warnings, u.error⟩

/-- `gen_SaturationCurves_table` (ingest.py lines 199-222): identical to
`gen_Scenarios_table` but targeting the `SaturationCurves` table. -/
def gen_SaturationCurves_table (names : List String) (schema : List SchemaRow)
    (live : List LiveCol) : UpdateResult :=
  match (names.map String.length).max? with
  | none => ⟨[], [], some "ValueError: zero-size array to reduction operation maximum which has no identity"⟩
  | some namemxchar =>
      let u := updateSQLschema "SaturationCurves" schema live
      ⟨Stmt.bulkLoad "SaturationCurves" "replace" namemxchar :: u.stmts, u.warnings, u.error⟩

/-- A DataFrame column as `get_optimal_sql_datatypes` dispatches on it:
an integer column (numpy integer dtype, including unsigned, so any values
representable up to `uint64`), a floating column, a boolean column, or an
object column whose non-NaN entries are strings. -/
inductive ColData where
  | ints (vals : List Int)
  | floats (vals : List Rat)
  | bools (vals : List Bool)
  | strs (vals : List (Option String))
deriving Repr, DecidableEq

/-- The per-column body of `get_optimal_sql_datatypes` (ingest.py lines
339-360).  For an integer column the chained comparisons run on
`min()`/`max()`; on an empty column both are NaN, every comparison is
`False` and the `else` branch yields `BIGINT`.  For an object column
`.str.len().max()` over no observed string is NaN, giving the
`VARCHAR(255)` fallback. -/
def col_type : ColData → String
  | .ints l =>
      match l.min?, l.max? with
      | some mn, some mx =>
          if -128 ≤ mn ∧ mx ≤ 127 then "TINYINT"
          else if -32768 ≤ mn ∧ mx ≤ 32767 then "SMALLINT"
          else if -2147483648 ≤ mn ∧ mx ≤ 2147483647 then "INT"
          else "BIGINT"
      | _, _ => "BIGINT"
  | .floats _ => "DOUBLE"
  | .bools _ => "BOOLEAN"
  | .strs l =>
      match ((l.filterMap id).map String.length).max? with
      | none => "VARCHAR(255)"
      | some maxLen => "VARCHAR(" ++ toString maxLen ++ ")"

/-- `get_optimal_sql_datatypes` (ingest.py lines 328-361): the dict
mapping each column name to its chosen SQL datatype. -/
def get_optimal_sql_datatypes (df : List (String × ColData)) :
    List (String × String) :=
  df.map (fun c => (c.1, col_type c.2))

/-- `gen_engine` (ingest.py lines 11-46).  `stored` is what
`keyring.get_password` returns for the `(server, username)` pair,
`prompted` what `getpass` would read, and `connOk` whether the test
connection's `SHOW TABLES` succeeds.  The result is the keyring write
performed (`none` when no password is stored), or the connection error.
-/
def gen_engine (stored : Option String) (prompted : String) (connOk : Bool) :
    Except String (Option String) :=
  let passwd := stored.getD prompted
  let newpass := stored.isNone
  if !connOk then .error "OperationalError: connection failed"
  else if newpass then .ok (some passwd)
  else .ok none

/-- `np.linspace(a, b, n)`: `n` evenly spaced samples from `a` to `b`
inclusive. -/
def linspace (a b : Rat) (n : Nat) : List Rat :=
  (List.range n).map (fun i : Nat => a + i * (b - a) / (n - 1))

/-- The fields of an observing mode that determine the rows
`gen_saturation_curves` emits: `mode["Scenario"]` and the numeric values
of `mode["IWA"]` and `mode["OWA"]` (in the IWA's angular unit). -/
structure Mode where
  scenario : String
  iwa : Rat
  owa : Rat
deriving Repr, DecidableEq

/-- One output row of `gen_saturation_curves`, restricted to the columns
built inside this repository (`scenario_name` and the sampled working
angle); the remaining columns are values of the external simulation at
that angle. -/
structure SatRow where
  scenario_name : String
  angle : Rat
deriving Repr, DecidableEq

/-- `npoints = 100` (gen_saturation_curves.py line 43). -/
def npoints : Nat := 100

/-- `gen_saturation_curves` (gen_saturation_curves.py lines 13-120),
restricted to the row structure it builds: per observing mode, the
scenario name is repeated `npoints` times against
`np.linspace(IWA, OWA, npoints)`, and the per-mode blocks are
concatenated in mode order into the output DataFrame. -/
def gen_saturation_curves (modes : List Mode) : List SatRow :=
  modes.flatMap (fun m =>
    (linspace m.iwa m.owa npoints).map (fun wa => ⟨m.scenario, wa⟩))

/-- The signed ranges of the four SQL integer types, smallest first;
stated from the claim's words (`TINYINT`, `SMALLINT`, `INT`, `BIGINT`
with their signed bounds), for comparison with `col_type`. -/
def sqlIntRanges : List (String × Int × Int) :=
  [("TINYINT", -128, 127), ("SMALLINT", -32768, 32767),
   ("INT", -2147483648, 2147483647),
   ("BIGINT", -9223372036854775808, 9223372036854775807)]

/-- Stated from the claim's words: the smallest of the four SQL integer
types whose signed range contains both `mn` and `mx`, when one exists. -/
def smallestFittingIntType (mn mx : Int) : Option String :=
  ((sqlIntRanges.filter (fun r => decide (r.2.1 ≤ mn ∧ mx ≤ r.2.2))).head?).map
    (fun r => r.1)

/-- A concrete change request: a valid new column for live table `A`,
and a column for live table `B` that is neither live nor marked new. -/
def c1_rows : List ReqRow :=
  [⟨some "x2", some "x2", some "A", none, some true, some "new col",
      some "INT", some false, none⟩,
   ⟨some "w", some "w", some "B", none, some false, some "desc",
      some "INT", some false, none⟩]

/-- A live database holding tables `A` and `B`. -/
def c1_db : DB := [("A", ["x"]), ("B", ["y"])]

/-- A schema description covering only column `a`. -/
def c2_schema : List SchemaRow := [⟨"a", some "col a", 0, none⟩]

/-- A live table with three uncommented columns `a`, `b`, `c`, of which
`b` and `c` are missing from `c2_schema`. -/
def c2_live : List LiveCol :=
  [⟨"a", "`a` int", false⟩, ⟨"b", "`b` int", false⟩, ⟨"c", "`c` int", false⟩]

/-! ## Helper lemmas -/

theorem normalize_db_colname (r : ReqRow) :
    (normalize_string_type r).db_colname = r.db_colname := by
  unfold normalize_string_type; split <;> rfl

theorem normalize_table (r : ReqRow) :
    (normalize_string_type r).table = r.table := by
  unfold normalize_string_type; split <;> rfl

theorem default_sql_datatype (r : ReqRow) :
    (default_db_colname r).sql_datatype = r.sql_datatype := by
  unfold default_db_colname; split <;> rfl

theorem proc_row_sql_datatype_ne_string (r : ReqRow) :
    (proc_row r).sql_datatype ≠ some "STRING" := by
  unfold proc_row normalize_string_type
  split
  · simp
  · next h => simpa [default_sql_datatype, fillna_bools] using
      (by simpa [default_sql_datatype] using h)

/-! ## Claim theorems -/

/-- Claim C10: `gen_engine` writes a password to the keyring exactly when none
was stored for the `(server, username)` pair and the `SHOW TABLES` test
connection succeeded; a failed connection leaves the store unchanged and
a stored password is never overwritten. -/
theorem gen_engine_keyring_policy :
    ∀ (stored : Option String) (prompted : String) (connOk : Bool),
      (∀ w, gen_engine stored prompted connOk = Except.ok (some w) ↔
        (connOk = true ∧ stored = none ∧ w = prompted)) ∧
      (connOk = false →
        ∃ e, gen_engine stored prompted connOk = Except.error e) := by
  intro stored prompted connOk
  cases connOk <;> cases stored <;> simp [gen_engine]
  exact fun w => eq_comm

/-- Witness for `gen_engine_keyring_policy`. -/
theorem gen_engine_keyring_policy_witness :
    gen_engine none "pw" true = Except.ok (some "pw") ∧
    ∃ e, gen_engine (some "old") "pw" false = Except.error e :=
  ⟨((gen_engine_keyring_policy none "pw" true).1 "pw").mpr ⟨rfl, rfl, rfl⟩,
   (gen_engine_keyring_policy (some "old") "pw" false).2 rfl⟩

/-- Claim C7: a change-request row whose `DB_COLNAME` is missing and whose
`NEW_KEY` is set gets `MY_COLNAME` as its target column name; a row not
marked new keeps its `DB_COLNAME` unchanged. -/
theorem proc_row_db_colname_default :
    ∀ r : ReqRow,
      (r.new_key = some true → r.db_colname = none →
        (proc_row r).db_colname = r.my_colname) ∧
      (r.new_key ≠ some true →
        (proc_row r).db_colname = r.db_colname) := by
  intro r
  constructor
  · intro h1 h2
    simp [proc_row, normalize_db_colname, default_db_colname, fillna_bools,
      h1, h2]
  · intro h
    rcases hk : r.new_key with _ | b
    · simp [proc_row, normalize_db_colname, default_db_colname, fillna_bools, hk]
    · cases b
      · simp [proc_row, normalize_db_colname, default_db_colname, fillna_bools, hk]
      · exact absurd hk h

/-- Witness for `proc_row_db_colname_default`. -/
theorem proc_row_db_colname_default_witness :
    (proc_row ⟨some "m", none, some "T", none, some true, none, some "INT",
      some false, none⟩).db_colname = some "m" ∧
    (proc_row ⟨some "m", some "d", some "T", none, some false, none,
      some "INT", some false, none⟩).db_colname = some "d" :=
  ⟨(proc_row_db_colname_default _).1 rfl rfl,
   (proc_row_db_colname_default _).2 (by decide)⟩

/-- Claim C9: `proc_col_req` accepts a file exactly when its column set equals
the nine expected columns; any file violating this — in particular one
with an extra column — is rejected with no statement issued (the check
precedes every database access). -/
theorem proc_col_req_column_set_gate :
    ∀ (cols : List String),
      (cols_ok cols = true ↔ ∀ c, c ∈ cols ↔ c ∈ expected_cols) ∧
      (∀ (rows : List ReqRow) (db : DB) (extra : String),
        extra ∈ cols → extra ∉ expected_cols →
        (proc_col_req cols rows db).stmts = [] ∧
        (proc_col_req cols rows db).error.isSome = true) := by
  intro cols
  have hok : cols_ok cols = true ↔ ∀ c, c ∈ cols ↔ c ∈ expected_cols := by
    simp only [cols_ok, Bool.and_eq_true, List.all_eq_true]
    constructor
    · intro ⟨h1, h2⟩ c
      constructor
      · intro hc; simpa using h1 c hc
      · intro hc; simpa using h2 c hc
    · intro h
      constructor
      · intro c hc; simpa using (h c).mp hc
      · intro c hc; simpa using (h c).mpr hc
  refine ⟨hok, ?_⟩
  intro rows db extra hin hout
  have hfail : cols_ok cols = false := by
    cases hcase : cols_ok cols
    · rfl
    · exact absurd (((hok.mp hcase) extra).mp hin) hout
  simp [proc_col_req, hfail]

/-- Witness for `proc_col_req_column_set_gate`. -/
theorem proc_col_req_column_set_gate_witness :
    (proc_col_req ("EXTRA" :: expected_cols) [] []).stmts = [] ∧
    (proc_col_req ("EXTRA" :: expected_cols) [] []).error.isSome = true :=
  (proc_col_req_column_set_gate ("EXTRA" :: expected_cols)).2 [] [] "EXTRA"
    (by decide) (by decide)

/-- Claim C4: for a non-empty indexed column set, `add_indexes` issues exactly
one `ADD INDEX` statement listing all the columns together; for
`(column, foreign key)` pairs, `add_foreignkeys` issues exactly one
`ADD FOREIGN KEY` statement per pair, each ending with
`ON DELETE NO ACTION ON UPDATE NO ACTION`. -/
theorem constraint_application_statements :
    ∀ (t : String) (cols fkeys : List String),
      (cols ≠ [] →
        (add_indexes t cols).length = 1 ∧
        ∀ s ∈ add_indexes t cols,
          render s = "ALTER TABLE " ++ t ++ " ADD INDEX (" ++
            String.intercalate ", " cols ++ ")") ∧
      (cols.length = fkeys.length →
        (add_foreignkeys t cols fkeys).length = cols.length) ∧
      (∀ s ∈ add_foreignkeys t cols fkeys, ∃ pre,
        render s = pre ++ " ON DELETE NO ACTION ON UPDATE NO ACTION") := by
  intro t cols fkeys
  refine ⟨fun _ => ⟨rfl, ?_⟩, fun h => ?_, fun s hs => ?_⟩
  · intro s hs
    simp only [add_indexes, List.mem_singleton] at hs
    subst hs; rfl
  · simp [add_foreignkeys, List.length_zip, h]
  · simp only [add_foreignkeys, List.mem_map] at hs
    obtain ⟨p, _, hp⟩ := hs
    exact ⟨"ALTER TABLE " ++ t ++ " ADD FOREIGN KEY (" ++ p.1 ++
      ") REFERENCES " ++ p.2, by rw [← hp]; rfl⟩

/-- Witness for `constraint_application_statements`. -/
theorem constraint_application_statements_witness :
    (add_indexes "T" ["a", "b"]).length = 1 ∧
    (add_foreignkeys "T" ["a"] ["R(x)"]).length = 1 ∧
    ∃ pre, render (Stmt.addForeignKey "T" "a" "R(x)") =
      pre ++ " ON DELETE NO ACTION ON UPDATE NO ACTION" :=
  ⟨((constraint_application_statements "T" ["a", "b"] []).1 (by decide)).1,
   (constraint_application_statements "T" ["a"] ["R(x)"]).2.1 rfl,
   (constraint_application_statements "T" ["a"] ["R(x)"]).2.2 _ (by decide)⟩

/-- Claim C2 (code bug): with live columns `a`, `b`, `c` uncommented and a
schema describing only `a`, `updateSQLschema` emits a single aggregated
warning for the two missing columns (not one per column) and then, far
from proceeding non-fatally, aborts with an `IndexError` while building
the `CHANGE` statement for `b`; only column `a` is reconciled. -/
theorem updateSQLschema_missing_column_crash :
    (updateSQLschema "T" c2_schema c2_live).warnings.length = 1 ∧
    (updateSQLschema "T" c2_schema c2_live).error.isSome = true ∧
    (updateSQLschema "T" c2_schema c2_live).stmts =
      [Stmt.changeColumn "T" "a" "`a` int" "col a"] := by decide

/-- Claim C1 (counterexample): a request touching live tables `A` (valid, one
new column) and `B` (a column neither live nor marked new) fails the
assertion for `B` only after the `ADD COLUMN` DDL for `A` has already
been executed: the validation gate is not atomic across the request. -/
theorem proc_col_req_not_request_atomic :
    (∃ r ∈ preprocess c1_rows, r.table = some "B" ∧
      optIsin r.db_colname (dbCols c1_db "B") = false ∧
      r.new_key = some false) ∧
    (proc_col_req expected_cols c1_rows c1_db).error.isSome = true ∧
    (proc_col_req expected_cols c1_rows c1_db).stmts =
      [Stmt.addColumn "A" "x2" "INT" "new col"] := by decide

/-- Claim C8 (counterexample): a `uint64` column with value `2^64 - 1` is an
integer column for which `get_optimal_sql_datatypes` answers `BIGINT`,
yet no SQL integer type's signed range — `BIGINT`'s included — contains
the column maximum, so the "smallest containing type" characterisation
fails. -/
theorem get_optimal_sql_datatypes_uint64_counterexample :
    get_optimal_sql_datatypes [("v", ColData.ints [18446744073709551615])] =
      [("v", "BIGINT")] ∧
    smallestFittingIntType 18446744073709551615 18446744073709551615 =
      none := by decide

theorem mem_uniqueKeepFirst :
    ∀ (l seen : List String) (x : String),
      x ∈ uniqueKeepFirst seen l ↔ (x ∈ l ∧ x ∉ seen) := by
  intro l
  induction l with
  | nil => intro seen x; simp [uniqueKeepFirst]
  | cons y ys ih =>
    intro seen x
    unfold uniqueKeepFirst
    by_cases h : seen.contains y = true
    · rw [if_pos h, ih]
      have hy : y ∈ seen := by simpa using h
      constructor
      · rintro ⟨h1, h2⟩; exact ⟨List.mem_cons_of_mem _ h1, h2⟩
      · rintro ⟨h1, h2⟩
        rcases List.mem_cons.mp h1 with he | hm
        · subst he; exact absurd hy h2
        · exact ⟨hm, h2⟩
    · rw [if_neg h]
      have hy : y ∉ seen := by simpa using h
      constructor
      · intro hx
        rcases List.mem_cons.mp hx with he | hm
        · subst he; exact ⟨List.mem_cons_self _ _, hy⟩
        · obtain ⟨h1, h2⟩ := (ih _ _).mp hm
          exact ⟨List.mem_cons_of_mem _ h1,
            fun hc => h2 (List.mem_cons_of_mem _ hc)⟩
      · rintro ⟨h1, h2⟩
        rcases List.mem_cons.mp h1 with he | hm
        · subst he; exact List.mem_cons_self _ _
        · by_cases hxy : x = y
          · subst hxy; exact List.mem_cons_self _ _
          · refine List.mem_cons_of_mem _ ((ih _ _).mpr ⟨hm, fun hc => ?_⟩)
            rcases List.mem_cons.mp hc with he2 | hs2
            · exact hxy he2
            · exact h2 hs2

theorem procExistingTable_targetTable (rows : List ReqRow)
    (lc : List String) (t : String) :
    ∀ s ∈ (procExistingTable rows lc t).1, s.targetTable = t := by
  intro s hs
  simp only [procExistingTable] at hs
  split at hs
  · simp at hs
  · simp only [List.mem_append] at hs
    rcases hs with (hs | hs) | hs
    · obtain ⟨r, _, hr⟩ := List.mem_map.mp hs
      rw [← hr]; rfl
    · split at hs
      · simp only [add_indexes, List.mem_singleton] at hs
        rw [hs]; rfl
      · simp at hs
    · split at hs
      · obtain ⟨p, _, hp⟩ := List.mem_map.mp hs
        rw [← hp]; rfl
      · simp at hs

theorem procExistingTable_bad (rows : List ReqRow) (lc : List String)
    (t : String)
    (hex : ∃ r ∈ rows, r.table = some t ∧ optIsin r.db_colname lc = false ∧
      r.new_key = some false) :
    procExistingTable rows lc t =
      ([], some ("Some keys requested for table " ++ t ++
        " do not exist in DB, but are not marked as new.")) := by
  obtain ⟨r, hr, ht, hisin, hnk⟩ := hex
  have hall : ((rows.filter (fun r => r.table == some t)).filter
      (fun r => !optIsin r.db_colname lc)).all
        (fun r => r.new_key.getD false) = false := by
    rw [List.all_eq_false]
    refine ⟨r, List.mem_filter.mpr ⟨List.mem_filter.mpr ⟨hr, ?_⟩, ?_⟩, ?_⟩
    · simp [ht]
    · simp [hisin]
    · simp [hnk]
  simp only [procExistingTable]
  rw [hall]
  rfl

theorem procExistingTables_bad (rows : List ReqRow) (db : DB) :
    ∀ (ts : List String) (t : String), t ∈ ts →
      (∃ r ∈ rows, r.table = some t ∧
        optIsin r.db_colname (dbCols db t) = false ∧
        r.new_key = some false) →
      (procExistingTables rows db ts).2.isSome = true ∧
      ∀ s ∈ (procExistingTables rows db ts).1, s.targetTable ≠ t := by
  intro ts
  induction ts with
  | nil => intro t ht; cases ht
  | cons t' rest ih =>
    intro t ht hex
    by_cases he : t' = t
    · subst he
      have hbad := procExistingTable_bad rows (dbCols db t') t' hex
      unfold procExistingTables
      rw [hbad]
      exact ⟨rfl, by intro s hs; simp at hs⟩
    · have hm : t ∈ rest := by
        rcases List.mem_cons.mp ht with h1 | h1
        · exact absurd h1.symm he
        · exact h1
      obtain ⟨ih1, ih2⟩ := ih t hm hex
      unfold procExistingTables
      rcases hpe : procExistingTable rows (dbCols db t') t' with ⟨s2, e2⟩
      have htt : ∀ s ∈ s2, s.targetTable = t' := by
        intro s hs
        exact procExistingTable_targetTable rows (dbCols db t') t' s
          (by rw [hpe]; exact hs)
      cases e2 with
      | some e =>
        refine ⟨rfl, fun s hs hc => ?_⟩
        exact he ((htt s hs).symm.trans hc)
      | none =>
        refine ⟨ih1, fun s hs => ?_⟩
        have hs' : s ∈ s2 ++ (procExistingTables rows db rest).1 := hs
        rcases List.mem_append.mp hs' with h1 | h1
        · intro hc; exact he ((htt s h1).symm.trans hc)
        · exact ih2 s h1

/-- Claim C1 (amended): when a change-request row targets an existing live
table `t` with a `DB_COLNAME` absent from `t`'s live columns and
`NEW_KEY` not set, the run fails with an assertion error and no DDL
statement targeting `t` is ever executed; the gate is per table, and DDL
for tables processed earlier in the same request may already have been
executed. -/
theorem proc_col_req_per_table_gate :
    ∀ (cols : List String) (rows : List ReqRow) (db : DB) (t : String),
      t ∈ dbTables db →
      (∃ r ∈ preprocess rows, r.table = some t ∧
        optIsin r.db_colname (dbCols db t) = false ∧
        r.new_key = some false) →
      (proc_col_req cols rows db).error.isSome = true ∧
      ∀ s ∈ (proc_col_req cols rows db).stmts, s.targetTable ≠ t := by
  intro cols rows db t htdb hex
  obtain ⟨r, hr, hrt, hrisin, hrnk⟩ := hex
  by_cases h1 : cols_ok cols = true
  case neg =>
    have h1f : cols_ok cols = false := by
      cases hcase : cols_ok cols
      · rfl
      · exact absurd hcase h1
    refine ⟨by simp [proc_col_req, h1f], fun s hs => ?_⟩
    simp [proc_col_req, h1f] at hs
  case pos =>
    by_cases h2 : (preprocess rows).all reqcols_ok = true
    case neg =>
      have h2f : (preprocess rows).all reqcols_ok = false := by
        cases hcase : (preprocess rows).all reqcols_ok
        · rfl
        · exact absurd hcase h2
      refine ⟨by simp [proc_col_req, h1, h2f], fun s hs => ?_⟩
      simp [proc_col_req, h1, h2f] at hs
    case pos =>
      have htex : t ∈ existing_tables (preprocess rows) db := by
        rw [existing_tables, List.mem_filter]
        refine ⟨?_, by simpa using htdb⟩
        rw [req_tables, mem_uniqueKeepFirst]
        exact ⟨List.mem_filterMap.mpr ⟨r, hr, hrt⟩, by simp⟩
      obtain ⟨hsome, hnt⟩ := procExistingTables_bad (preprocess rows) db
        (existing_tables (preprocess rows) db) t htex
        ⟨r, hr, hrt, hrisin, hrnk⟩
      rcases hper : procExistingTables (preprocess rows) db
          (existing_tables (preprocess rows) db) with ⟨s1, e1⟩
      rw [hper] at hsome hnt
      cases e1 with
      | none => simp at hsome
      | some e =>
        have hres : proc_col_req cols rows db = ⟨s1, some e⟩ := by
          simp only [proc_col_req, h1, h2, Bool.not_true, Bool.false_eq_true,
            if_false]
          rw [hper]
        rw [hres]
        exact ⟨rfl, hnt⟩

/-- Witness for `proc_col_req_per_table_gate`: the request of
`proc_col_req_not_request_atomic`, seen from table `B`. -/
theorem proc_col_req_per_table_gate_witness :
    (proc_col_req expected_cols c1_rows c1_db).error.isSome = true ∧
    ∀ s ∈ (proc_col_req expected_cols c1_rows c1_db).stmts,
      s.targetTable ≠ "B" :=
  proc_col_req_per_table_gate expected_cols c1_rows c1_db "B" (by decide)
    (by decide)

theorem pyStr_ne_of_ne (x : Option String) (v : String) (hv : v ≠ "nan")
    (h : x ≠ some v) : pyStr x ≠ v := by
  cases x with
  | none => simpa [pyStr] using hv.symm
  | some s => exact fun he => h (congrArg some he)

theorem dt_procExistingTable (rows : List ReqRow) (lc : List String)
    (t : String) :
    ∀ s ∈ (procExistingTable rows lc t).1, ∀ dt ∈ s.datatypes,
      ∃ r ∈ rows, dt = pyStr r.sql_datatype := by
  intro s hs dt hdt
  simp only [procExistingTable] at hs
  split at hs
  · simp at hs
  · simp only [List.mem_append] at hs
    rcases hs with (hs | hs) | hs
    · obtain ⟨r, hrmem, hr⟩ := List.mem_map.mp hs
      rw [← hr] at hdt
      simp only [Stmt.datatypes, List.mem_singleton] at hdt
      exact ⟨r, (List.mem_filter.mp (List.mem_filter.mp hrmem).1).1, hdt⟩
    · split at hs
      · simp only [add_indexes, List.mem_singleton] at hs
        rw [hs] at hdt
        simp [Stmt.datatypes] at hdt
      · simp at hs
    · split at hs
      · simp only [add_foreignkeys, List.mem_map] at hs
        obtain ⟨p, _, hp⟩ := hs
        rw [← hp] at hdt
        simp [Stmt.datatypes] at hdt
      · simp at hs

theorem dt_procExistingTables (rows : List ReqRow) (db : DB) :
    ∀ (ts : List String), ∀ s ∈ (procExistingTables rows db ts).1,
      ∀ dt ∈ s.datatypes, ∃ r ∈ rows, dt = pyStr r.sql_datatype := by
  intro ts
  induction ts with
  | nil => intro s hs; simp [procExistingTables] at hs
  | cons t rest ih =>
    intro s hs dt hdt
    unfold procExistingTables at hs
    rcases hpe : procExistingTable rows (dbCols db t) t with ⟨s2, e2⟩
    rw [hpe] at hs
    have h2 : ∀ u ∈ s2, ∀ du ∈ u.datatypes, ∃ r ∈ rows, du = pyStr r.sql_datatype := by
      intro u hu
      exact dt_procExistingTable rows (dbCols db t) t u (by rw [hpe]; exact hu)
    cases e2 with
    | some e =>
      have hs' : s ∈ s2 := hs
      exact h2 s hs' dt hdt
    | none =>
      have hs' : s ∈ s2 ++ (procExistingTables rows db rest).1 := hs
      rcases List.mem_append.mp hs' with h1 | h1
      · exact h2 s h1 dt hdt
      · exact ih s h1 dt hdt

theorem dt_procNewTable (rows : List ReqRow) (t : String) :
    ∀ s ∈ procNewTable rows t, ∀ dt ∈ s.datatypes,
      ∃ r ∈ rows, dt = pyStr r.sql_datatype := by
  intro s hs dt hdt
  simp only [procNewTable] at hs
  rcases List.mem_cons.mp hs with he | hm
  · rw [he] at hdt
    simp only [Stmt.datatypes, List.map_map, List.mem_map] at hdt
    obtain ⟨r, hrmem, hr⟩ := hdt
    exact ⟨r, (List.mem_filter.mp hrmem).1, hr.symm⟩
  · rcases List.mem_append.mp hm with h1 | h1
    · split at h1
      · simp only [add_indexes, List.mem_singleton] at h1
        rw [h1] at hdt
        simp [Stmt.datatypes] at hdt
      · simp at h1
    · split at h1
      · simp only [add_foreignkeys, List.mem_map] at h1
        obtain ⟨p, _, hp⟩ := h1
        rw [← hp] at hdt
        simp [Stmt.datatypes] at hdt
      · simp at h1

theorem dt_proc_col_req (cols : List String) (rows : List ReqRow) (db : DB) :
    ∀ s ∈ (proc_col_req cols rows db).stmts, ∀ dt ∈ s.datatypes,
      ∃ r ∈ preprocess rows, dt = pyStr r.sql_datatype := by
  intro s hs dt hdt
  by_cases h1 : cols_ok cols = true
  case neg =>
    have h1f : cols_ok cols = false := by
      cases hcase : cols_ok cols
      · rfl
      · exact absurd hcase h1
    simp [proc_col_req, h1f] at hs
  case pos =>
    by_cases h2 : (preprocess rows).all reqcols_ok = true
    case neg =>
      have h2f : (preprocess rows).all reqcols_ok = false := by
        cases hcase : (preprocess rows).all reqcols_ok
        · rfl
        · exact absurd hcase h2
      simp [proc_col_req, h1, h2f] at hs
    case pos =>
      simp only [proc_col_req, h1, h2, Bool.not_true, Bool.false_eq_true,
        if_false] at hs
      rcases hper : procExistingTables (preprocess rows) db
          (existing_tables (preprocess rows) db) with ⟨s1, e1⟩
      rw [hper] at hs
      have hex : ∀ u ∈ s1, ∀ du ∈ u.datatypes,
          ∃ r ∈ preprocess rows, du = pyStr r.sql_datatype := by
        intro u hu
        exact dt_procExistingTables (preprocess rows) db
          (existing_tables (preprocess rows) db) u (by rw [hper]; exact hu)
      cases e1 with
      | some e =>
        have hs' : s ∈ s1 := hs
        exact hex s hs' dt hdt
      | none =>
        have hs' : s ∈ s1 ++
            ((new_tables (preprocess rows) db).map
              (procNewTable (preprocess rows))).flatten := hs
        rcases List.mem_append.mp hs' with hA | hB
        · exact hex s hA dt hdt
        · obtain ⟨l, hl, hsl⟩ := List.mem_flatten.mp hB
          obtain ⟨t', _, hpt⟩ := List.mem_map.mp hl
          rw [← hpt] at hsl
          exact dt_procNewTable (preprocess rows) t' s hsl dt hdt

/-- Claim C6: every change-request row whose `SQL_DATATYPE` equals the sentinel
`STRING` is rewritten to `TEXT` before any DDL is generated, so no
statement `proc_col_req` executes — `CREATE TABLE` and `ADD COLUMN`
included — carries the literal type `STRING`. -/
theorem proc_col_req_no_string_datatype :
    ∀ (cols : List String) (rows : List ReqRow) (db : DB),
      ((preprocess rows).all
        (fun r => !(r.sql_datatype == some "STRING"))) = true ∧
      ((proc_col_req cols rows db).stmts.all
        (fun s => !s.datatypes.contains "STRING")) = true := by
  intro cols rows db
  have hrows : ∀ r ∈ preprocess rows, r.sql_datatype ≠ some "STRING" := by
    intro r hr
    obtain ⟨r0, _, hr0⟩ := List.mem_map.mp (by simpa [preprocess] using hr)
    exact hr0 ▸ proc_row_sql_datatype_ne_string r0
  constructor
  · rw [List.all_eq_true]
    intro r hr
    simpa using hrows r hr
  · rw [List.all_eq_true]
    intro s hs
    have : "STRING" ∉ s.datatypes := by
      intro hmem
      obtain ⟨r, hrmem, hr⟩ := dt_proc_col_req cols rows db s hs "STRING" hmem
      exact pyStr_ne_of_ne r.sql_datatype "STRING" (by decide)
        (hrows r hrmem) hr.symm
    simpa using this

theorem linspace_length (a b : Rat) (n : Nat) : (linspace a b n).length = n := by
  rw [linspace, List.length_map, List.length_range]

theorem linspace_getElem (a b : Rat) (n i : Nat) (h : i < n) :
    (linspace a b n)[i]? = some (a + i * (b - a) / (n - 1)) := by
  rw [linspace, List.getElem?_map, List.getElem?_range h]; rfl

theorem gen_saturation_curves_cons (m : Mode) (ms : List Mode) :
    gen_saturation_curves (m :: ms) =
      (linspace m.iwa m.owa npoints).map
        (fun wa => (⟨m.scenario, wa⟩ : SatRow)) ++
        gen_saturation_curves ms := by
  simp [gen_saturation_curves]

theorem gen_saturation_curves_getElem :
    ∀ (modes : List Mode) (j i : Nat) (m : Mode), modes[j]? = some m →
      i < npoints →
      (gen_saturation_curves modes)[npoints * j + i]? =
        some ⟨m.scenario, m.iwa + i * (m.owa - m.iwa) / (npoints - 1)⟩ := by
  intro modes
  induction modes with
  | nil => intro j i m hm; simp at hm
  | cons m0 ms ih =>
    intro j i m hm hi
    rw [gen_saturation_curves_cons]
    cases j with
    | zero =>
      simp only [List.getElem?_cons_zero, Option.some.injEq] at hm
      subst hm
      rw [Nat.mul_zero, Nat.zero_add, List.getElem?_append,
        if_pos (by simpa [linspace_length] using hi),
        List.getElem?_map, linspace_getElem _ _ _ _ hi]
      rfl
    | succ j' =>
      simp only [List.getElem?_cons_succ] at hm
      have hlen : ((linspace m0.iwa m0.owa npoints).map
          (fun wa => (⟨m0.scenario, wa⟩ : SatRow))).length = npoints := by
        simp [linspace_length]
      rw [List.getElem?_append_right (by rw [hlen]; nlinarith [Nat.mul_le_mul_left npoints (Nat.zero_le j')])]
      rw [hlen]
      have harith : npoints * (j' + 1) + i - npoints = npoints * j' + i := by
        rw [Nat.mul_succ]
        omega
      rw [harith]
      exact ih j' i m hm hi

/-- Claim C3: per observing mode, `gen_saturation_curves` samples exactly
`npoints = 100` working angles, uniformly spaced and inclusive between
the mode's inner and outer working angle — the mode's first sampled row
carries the inner working angle, its last the outer, and consecutive
samples differ by `(OWA - IWA) / (npoints - 1)` — and the output holds
exactly `npoints * number_of_modes` rows. -/
theorem gen_saturation_curves_sampling :
    ∀ (modes : List Mode),
      (gen_saturation_curves modes).length = npoints * modes.length ∧
      ∀ (j : Nat) (m : Mode), modes[j]? = some m →
        ((gen_saturation_curves modes)[npoints * j]? =
          some ⟨m.scenario, m.iwa⟩) ∧
        ((gen_saturation_curves modes)[npoints * j + (npoints - 1)]? =
          some ⟨m.scenario, m.owa⟩) ∧
        ∀ i : Nat, i + 1 < npoints →
          ∃ x y : SatRow,
            (gen_saturation_curves modes)[npoints * j + i]? = some x ∧
            (gen_saturation_curves modes)[npoints * j + (i + 1)]? = some y ∧
            x.scenario_name = m.scenario ∧ y.scenario_name = m.scenario ∧
            y.angle - x.angle = (m.owa - m.iwa) / (npoints - 1) := by
  intro modes
  constructor
  · induction modes with
    | nil => simp [gen_saturation_curves]
    | cons m0 ms ih =>
      rw [gen_saturation_curves_cons, List.length_append, List.length_map,
        linspace_length, ih, List.length_cons, Nat.mul_succ, Nat.add_comm]
  · intro j m hm
    refine ⟨?_, ?_, ?_⟩
    · have h := gen_saturation_curves_getElem modes j 0 m hm (by norm_num [npoints])
      rw [Nat.add_zero] at h
      rw [h]
      norm_num
    · have h := gen_saturation_curves_getElem modes j (npoints - 1) m hm
        (by norm_num [npoints])
      rw [h]
      have h99 : ((npoints - 1 : Nat) : Rat) = (npoints : Rat) - 1 := by
        norm_num [npoints]
      rw [h99]
      have hne : (npoints : Rat) - 1 ≠ 0 := by norm_num [npoints]
      congr 1
      congr 1
      field_simp
    · intro i hi
      have hx := gen_saturation_curves_getElem modes j i m hm
        (Nat.lt_of_succ_lt hi)
      have hy := gen_saturation_curves_getElem modes j (i + 1) m hm hi
      refine ⟨_, _, hx, hy, rfl, rfl, ?_⟩
      push_cast
      ring

/-- Witness for `gen_saturation_curves_sampling`: one mode with working
angles 3 and 9. -/
theorem gen_saturation_curves_sampling_witness :
    (gen_saturation_curves [⟨"m", 3, 9⟩]).length = npoints * 1 ∧
    (gen_saturation_curves [⟨"m", 3, 9⟩])[(0 : Nat)]? = some ⟨"m", 3⟩ ∧
    (gen_saturation_curves [⟨"m", 3, 9⟩])[(99 : Nat)]? = some ⟨"m", 9⟩ := by
  have h := gen_saturation_curves_sampling [⟨"m", 3, 9⟩]
  have h2 := h.2 0 ⟨"m", 3, 9⟩ rfl
  refine ⟨h.1, ?_, ?_⟩
  · have := h2.1
    rwa [Nat.mul_zero] at this
  · have := h2.2.1
    rwa [Nat.mul_zero, Nat.zero_add] at this

/-- Claim C5: for a non-empty input DataFrame, `gen_Scenarios_table` and
`gen_SaturationCurves_table` replace-load the data into their target
table (`to_sql` with `if_exists="replace"`, not an upsert), size the
`scenario_name` text column to the maximum observed name length, and
then run the comment-reconciliation step (`updateSQLschema`) against
the supplied schema description. -/
theorem populate_tables_spec :
    ∀ (names : List String) (schema : List SchemaRow) (live : List LiveCol),
      names ≠ [] →
      ∃ w,
        (gen_Scenarios_table names schema live).stmts =
          Stmt.bulkLoad "Scenarios" "replace" w ::
            (updateSQLschema "Scenarios" schema live).stmts ∧
        (gen_SaturationCurves_table names schema live).stmts =
          Stmt.bulkLoad "SaturationCurves" "replace" w ::
            (updateSQLschema "SaturationCurves" schema live).stmts ∧
        (∀ n ∈ names, n.length ≤ w) ∧
        (∃ n ∈ names, n.length = w) ∧
        (gen_Scenarios_table names schema live).error =
          (updateSQLschema "Scenarios" schema live).error ∧
        (gen_SaturationCurves_table names schema live).error =
          (updateSQLschema "SaturationCurves" schema live).error := by
  intro names schema live hne
  have hmapne : names.map String.length ≠ [] := by simpa using hne
  rcases hmax : (names.map String.length).max? with _ | w
  · exact absurd (List.max?_eq_none_iff.mp hmax) hmapne
  · obtain ⟨hmem, hle⟩ := (List.max?_eq_some_iff (fun a => le_refl a)
      (fun a b => max_choice a b) (fun _ _ _ => Nat.max_le)).mp hmax
    refine ⟨w, ?_, ?_, ?_, ?_, ?_, ?_⟩
    · simp [gen_Scenarios_table, hmax]
    · simp [gen_SaturationCurves_table, hmax]
    · intro n hn
      exact hle _ (List.mem_map.mpr ⟨n, hn, rfl⟩)
    · obtain ⟨n, hn, hw⟩ := List.mem_map.mp hmem
      exact ⟨n, hn, hw⟩
    · simp [gen_Scenarios_table, hmax]
    · simp [gen_SaturationCurves_table, hmax]

/-- Witness for `populate_tables_spec`. -/
theorem populate_tables_spec_witness :
    (gen_Scenarios_table ["ab", "a"] [] []).stmts =
      Stmt.bulkLoad "Scenarios" "replace" 2 ::
        (updateSQLschema "Scenarios" [] []).stmts := by
  obtain ⟨w, h1, -, hle, hex, -, -⟩ :=
    populate_tables_spec ["ab", "a"] [] [] (by decide)
  have h2le : (2 : Nat) ≤ w := hle "ab" (by decide)
  have hw : w = 2 := by
    obtain ⟨n, hn, hlen⟩ := hex
    rcases List.mem_cons.mp hn with h | h
    · rw [h] at hlen
      exact hlen.symm
    · rcases List.mem_cons.mp h with h' | h'
      · rw [h'] at hlen
        have h1w : (1 : Nat) = w := hlen
        omega
      · cases h'
  rw [hw] at h1
  exact h1

/-- Claim C8 (amended): `get_optimal_sql_datatypes` maps each integer column to
the smallest of `TINYINT`/`SMALLINT`/`INT` whose signed range contains
the column minimum and maximum, and otherwise to `BIGINT` with no range
check (so values outside `BIGINT`'s signed range, e.g. from `uint64`
columns, still yield `BIGINT`); each floating column to `DOUBLE`, each
boolean column to `BOOLEAN`, and every other column to `VARCHAR(max
observed string length)`, with `VARCHAR(255)` when no length is
observed. -/
theorem get_optimal_sql_datatypes_spec :
    ∀ (df : List (String × ColData)) (name : String) (c : ColData),
      (name, c) ∈ df →
      (name, col_type c) ∈ get_optimal_sql_datatypes df ∧
      (∀ l mn mx, c = ColData.ints l → l.min? = some mn →
        l.max? = some mx →
        col_type c = (smallestFittingIntType mn mx).getD "BIGINT") ∧
      (∀ l, c = ColData.floats l → col_type c = "DOUBLE") ∧
      (∀ l, c = ColData.bools l → col_type c = "BOOLEAN") ∧
      (∀ l, c = ColData.strs l →
        (((l.filterMap id).map String.length).max? = none →
          col_type c = "VARCHAR(255)") ∧
        (∀ mlen, ((l.filterMap id).map String.length).max? = some mlen →
          col_type c = "VARCHAR(" ++ toString mlen ++ ")")) := by
  intro df name c hmem
  refine ⟨List.mem_map.mpr ⟨(name, c), hmem, rfl⟩, ?_, ?_, ?_, ?_⟩
  · intro l mn mx hc hmn hmx
    subst hc
    simp only [col_type, hmn, hmx]
    by_cases h1 : -128 ≤ mn ∧ mx ≤ 127
    · simp [smallestFittingIntType, sqlIntRanges, h1]
    · by_cases h2 : -32768 ≤ mn ∧ mx ≤ 32767
      · simp [smallestFittingIntType, sqlIntRanges, h1, h2]
      · by_cases h3 : -2147483648 ≤ mn ∧ mx ≤ 2147483647
        · simp [smallestFittingIntType, sqlIntRanges, h1, h2, h3]
        · by_cases h4 : -9223372036854775808 ≤ mn ∧
              mx ≤ 9223372036854775807
          · simp [smallestFittingIntType, sqlIntRanges, h1, h2, h3, h4]
          · simp [smallestFittingIntType, sqlIntRanges, h1, h2, h3, h4]
  · intro l hc; subst hc; rfl
  · intro l hc; subst hc; rfl
  · intro l hc; subst hc
    constructor
    · intro hnone; simp [col_type, hnone]
    · intro mlen hsome; simp [col_type, hsome]

/-- Witness for `get_optimal_sql_datatypes_spec`. -/
theorem get_optimal_sql_datatypes_spec_witness :
    ("n", col_type (ColData.ints [-300, 5])) ∈
      get_optimal_sql_datatypes [("n", ColData.ints [-300, 5])] ∧
    col_type (ColData.ints [-300, 5]) =
      (smallestFittingIntType (-300) 5).getD "BIGINT" := by
  have h := get_optimal_sql_datatypes_spec
    [("n", ColData.ints [-300, 5])] "n" (ColData.ints [-300, 5]) (by decide)
  exact ⟨h.1, h.2.1 [-300, 5] (-300) 5 rfl (by decide) (by decide)⟩
